import Mathlib

/-!
Verification development for the Jarvix command dispatcher
(src/main.py, src/jarvix_logic.py, src/agents/data_scientist.py).

Python strings are modelled as Lean `String`s; the Python string
operations used by the source (`lower`, `strip`, `startswith`,
slicing, the `in` substring test, and string truthiness) are given
explicit executable definitions over the underlying character lists.
The asynchronous parts (the per-connection consumer loop and the
agents' generators) are modelled as pure functions from the data that
drives them (the queued commands, the fragments yielded by the
text-generation backend, whether an exception escaped) to the ordered
list of messages sent over the websocket.
-/

/-- Model of Python string truthiness `if s:` — true iff non-empty. -/
def pyTruthy (s : String) : Bool := s != ""

/-- Model of Python `s.lower()` (the source only lowercases ASCII keywords). -/
def pyLower (s : String) : String := ⟨s.data.map Char.toLower⟩

/-- Model of Python `s.strip()`: drop whitespace from both ends. -/
def pyStrip (s : String) : String :=
  ⟨((s.data.dropWhile Char.isWhitespace).reverse.dropWhile Char.isWhitespace).reverse⟩

/-- Model of Python `s.startswith(pre)`. -/
def pyStartsWith (s pre : String) : Bool := pre.data.isPrefixOf s.data

/-- Model of Python slicing `s[n:]`. -/
def pySlice (s : String) (n : Nat) : String := ⟨s.data.drop n⟩

/-- Executable contiguous-substring test on character lists,
the model of Python's `needle in hay`. -/
def occursIn : List Char → List Char → Bool
  | needle, [] => needle.isEmpty
  | needle, c :: rest => needle.isPrefixOf (c :: rest) || occursIn needle rest

/-- Model of Python `needle in hay` for strings. -/
def pyIn (needle hay : String) : Bool := occursIn needle.data hay.data

/-- The agent variants of jarvix_logic.py: the explicit-marker custom agent,
the two task-specific agents, and the default conversational agent. -/
inductive AgentKind
  | customPrompt
  | dataScience
  | calendar
  | conversational
deriving DecidableEq, Repr

/-- DataScienceAgent.keywords (jarvix_logic.py lines 39-47). -/
def DataScienceAgent.keywords : List String :=
  ["analyze", "analysis", "process", "visualize", "report", ".csv", ".xlsx"]

/-- CalendarAgent.keywords (jarvix_logic.py line 174). -/
def CalendarAgent.keywords : List String :=
  ["calendar", "event", "meeting", "schedule"]

/-- BaseAgent.can_handle (jarvix_logic.py lines 23-26):
`any(keyword in prompt.lower() for keyword in cls.keywords)`. -/
def can_handle (keywords : List String) (prompt : String) : Bool :=
  keywords.any (fun keyword => pyIn keyword (pyLower prompt))

/-- detect_custom_prompt_mode (jarvix_logic.py lines 408-410):
`prompt.strip().lower().startswith("custom:")`. -/
def detect_custom_prompt_mode (prompt : String) : Bool :=
  pyStartsWith (pyLower (pyStrip prompt)) "custom:"

/-- SPECIFIC_AGENTS (jarvix_logic.py line 405), each with its keyword list. -/
def SPECIFIC_AGENTS : List (AgentKind × List String) :=
  [(AgentKind.dataScience, DataScienceAgent.keywords),
   (AgentKind.calendar, CalendarAgent.keywords)]

/-- The `for agent_class in SPECIFIC_AGENTS` loop of jarvix_main_router
(jarvix_logic.py lines 433-438) with its conversational fallback
(lines 441-443): first agent whose predicate accepts the prompt wins. -/
def routeSpecific : List (AgentKind × List String) → String → AgentKind × String
  | [], prompt => (AgentKind.conversational, prompt)
  | a :: rest, prompt =>
      if can_handle a.2 prompt then (a.1, prompt) else routeSpecific rest prompt

/-- jarvix_main_router (jarvix_logic.py lines 413-444), as the selection it
makes: which agent runs and which prompt string that agent is executed with.
The custom branch passes `prompt[7:].strip()` computed on the original
prompt (line 427); all other branches pass the prompt unchanged. -/
def jarvix_main_router (prompt : String) : AgentKind × String :=
  if detect_custom_prompt_mode prompt then
    (AgentKind.customPrompt, pyStrip (pySlice prompt 7))
  else
    routeSpecific SPECIFIC_AGENTS prompt

/-- Selection rule as the spec words it (§4.3): the explicit marker is
checked first; otherwise the task-specific variants' predicates are
evaluated in list order and the first variant whose predicate returns
true (the head of the filtered list) wins; if none match, the default
conversational variant is used. -/
def specSelectedAgent (prompt : String) : AgentKind :=
  if detect_custom_prompt_mode prompt then AgentKind.customPrompt
  else
    match (SPECIFIC_AGENTS.filter (fun a => can_handle a.2 prompt)).head? with
    | some a => a.1
    | none => AgentKind.conversational

theorem isPrefixOf_eq_true_iff (n h : List Char) :
    n.isPrefixOf h = true ↔ ∃ t, n ++ t = h := by
  induction n generalizing h with
  | nil => simp [List.isPrefixOf]
  | cons a as ih =>
      cases h with
      | nil => simp [List.isPrefixOf]
      | cons b bs =>
          simp only [List.isPrefixOf, Bool.and_eq_true, beq_iff_eq, ih, List.cons_append,
            List.cons.injEq]
          constructor
          · rintro ⟨hab, t, ht⟩
            exact ⟨t, hab, ht⟩
          · rintro ⟨t, hab, ht⟩
            exact ⟨hab, t, ht⟩

theorem occursIn_eq_true_iff (n h : List Char) :
    occursIn n h = true ↔ ∃ s t, s ++ n ++ t = h := by
  induction h with
  | nil =>
      cases n with
      | nil => simp [occursIn]
      | cons c n2 => simp [occursIn]
  | cons c rest ih =>
      rw [occursIn, Bool.or_eq_true, isPrefixOf_eq_true_iff, ih]
      constructor
      · rintro (⟨t, ht⟩ | ⟨s, t, hst⟩)
        · exact ⟨[], t, by simpa using ht⟩
        · exact ⟨c :: s, t, by simp [hst]⟩
      · rintro ⟨s, t, hst⟩
        cases s with
        | nil => exact Or.inl ⟨t, by simpa using hst⟩
        | cons a s2 =>
            right
            have h2 : a = c ∧ s2 ++ n ++ t = rest := by simpa using hst
            exact ⟨s2, t, h2.2⟩

/-- C10: a task-specific agent's capability predicate returns true exactly
when one of its keywords occurs as a contiguous substring of the lowercased
payload; keywords are not matched as whole words, so prompts merely
embedding a keyword inside another word are accepted. -/
theorem C10_substring_matching :
    (∀ kws p, can_handle kws p = true
      ↔ ∃ k ∈ kws, ∃ s t, s ++ k.data ++ t = (pyLower p).data)
    ∧ can_handle DataScienceAgent.keywords "a reporter" = true
    ∧ can_handle CalendarAgent.keywords "preventative" = true := by
  refine ⟨?_, by decide, by decide⟩
  intro kws p
  simp [can_handle, pyIn, List.any_eq_true, occursIn_eq_true_iff]

/-- The server-to-client message kinds of the wire protocol, as built by the
`send_json` calls of the source. The `id` of a stream message is an
`Option String` because the sends in src/agents/data_scientist.py include no
`"id"` key at all (`none`), while those in src/jarvix_logic.py pass the
command id through. -/
inductive SrvMsg
  | start_processing (id : String)
  | log (id : String) (message : String)
  | stream (id : Option String) (message : String)
  | end_processing (id : String)
deriving DecidableEq, Repr

/-- The `"id"` field a message carries, if any. -/
def SrvMsg.idField : SrvMsg → Option String
  | SrvMsg.start_processing i => some i
  | SrvMsg.log i _ => some i
  | SrvMsg.stream i _ => i
  | SrvMsg.end_processing i => some i

/-- One observable step of driving `jarvix_main_router(prompt, ...)` inside
the consumer's `async for` (main.py line 48): either the generator yielded a
log string to the consumer, or the agent sent a stream message directly on
the websocket. Every `send_json` reachable from the router body is of type
`"stream"` (jarvix_logic.py lines 89, 153, 226, 233, 389, 393;
data_scientist.py lines 73, 206, 218, 227, 241, 252, 421). -/
inductive ExecEvent
  | yielded (message : String)
  | streamed (id : Option String) (message : String)
deriving DecidableEq, Repr

/-- The observable behaviour of one command's agent execution: the events it
produced, and whether an exception then escaped the router generator into
the consumer (`raises = true`). Such escapes are possible in the source:
`detect_custom_prompt_mode` (jarvix_logic.py line 410) raises AttributeError
on a non-string prompt, `genai.GenerativeModel(...)` (line 377) and the
`from weasyprint import ...` (line 206) run outside the agents' try blocks. -/
structure ExecBehavior where
  events : List ExecEvent
  raises : Bool
deriving DecidableEq, Repr

/-- The body of the consumer's `async for` (main.py lines 48-53): each
yielded log string is forwarded as a `log` message when truthy
(`if log_message:`), and each agent-sent stream message goes out as it is. -/
def consumeEvents (command_id : String) : List ExecEvent → List SrvMsg
  | [] => []
  | ExecEvent.yielded msg :: rest =>
      (if pyTruthy msg then [SrvMsg.log command_id msg] else [])
        ++ consumeEvents command_id rest
  | ExecEvent.streamed i msg :: rest =>
      SrvMsg.stream i msg :: consumeEvents command_id rest

/-- One iteration of command_consumer's `while True` (main.py lines 42-61)
for a dequeued `(command_id, prompt)`, given the behaviour of the agent
execution: `start_processing` is sent first (line 45), then the forwarded
events; `end_processing` (line 55) is reached only when the `async for`
finished without an escaping exception — otherwise control jumps to
`except Exception: pass` (lines 59-61) and the marker send is skipped. -/
def processOneCommand (execRun : String → String → ExecBehavior)
    (command_id prompt : String) : List SrvMsg :=
  SrvMsg.start_processing command_id
    :: consumeEvents command_id (execRun command_id prompt).events
    ++ (if (execRun command_id prompt).raises then []
        else [SrvMsg.end_processing command_id])

/-- command_consumer (main.py lines 42-61) over a finite list of queued
commands, with the connection never torn down: the loop processes the
commands strictly one after the other, each iteration via
`processOneCommand`. -/
def command_consumer (execRun : String → String → ExecBehavior) :
    List (String × String) → List SrvMsg
  | [] => []
  | (command_id, prompt) :: rest =>
      processOneCommand execRun command_id prompt ++ command_consumer execRun rest

theorem end_not_mem_consumeEvents (cid x : String) (evs : List ExecEvent) :
    SrvMsg.end_processing cid ∉ consumeEvents x evs := by
  induction evs with
  | nil => simp [consumeEvents]
  | cons e rest ih =>
      cases e with
      | yielded m =>
          by_cases ht : pyTruthy m = true <;>
            simp [consumeEvents, ht, ih]
      | streamed i m => simp [consumeEvents, ih]

theorem start_not_mem_consumeEvents (c x : String) (evs : List ExecEvent) :
    SrvMsg.start_processing c ∉ consumeEvents x evs := by
  induction evs with
  | nil => simp [consumeEvents]
  | cons e rest ih =>
      cases e with
      | yielded m =>
          by_cases ht : pyTruthy m = true <;>
            simp [consumeEvents, ht, ih]
      | streamed i m => simp [consumeEvents, ih]

theorem count_end_processOne_self (execRun : String → String → ExecBehavior)
    (cid p : String) :
    (processOneCommand execRun cid p).count (SrvMsg.end_processing cid)
      = if (execRun cid p).raises then 0 else 1 := by
  rw [processOneCommand]
  by_cases hr : (execRun cid p).raises = true
  · simp [hr, List.count_eq_zero, end_not_mem_consumeEvents]
  · simp only [Bool.not_eq_true] at hr
    simp [hr, List.count_append, List.count_eq_zero, end_not_mem_consumeEvents]

theorem count_end_processOne_other (execRun : String → String → ExecBehavior)
    (x p cid : String) (hne : x ≠ cid) :
    (processOneCommand execRun x p).count (SrvMsg.end_processing cid) = 0 := by
  rw [processOneCommand, List.count_eq_zero]
  intro hmem
  rcases List.mem_cons.mp hmem with h | h
  · cases h
  · rcases List.mem_append.mp h with h2 | h2
    · exact end_not_mem_consumeEvents cid x _ h2
    · by_cases hr : (execRun x p).raises = true
      · rw [hr] at h2; simp at h2
      · simp only [Bool.not_eq_true] at hr
        rw [hr] at h2
        simp only [if_neg Bool.false_ne_true, List.mem_singleton] at h2
        exact hne (SrvMsg.end_processing.inj h2).symm

theorem count_end_consumer_not_queued (execRun : String → String → ExecBehavior)
    (cmds : List (String × String)) (cid : String)
    (h : cid ∉ cmds.map Prod.fst) :
    (command_consumer execRun cmds).count (SrvMsg.end_processing cid) = 0 := by
  induction cmds with
  | nil => rfl
  | cons hd rest ih =>
      obtain ⟨c, p⟩ := hd
      simp only [List.map_cons, List.mem_cons, not_or] at h
      rw [command_consumer, List.count_append,
        count_end_processOne_other execRun c p cid (fun he => h.1 he.symm),
        ih h.2]

/-- C1 (amended): an `end_processing{id}` marker is emitted exactly once for
a dequeued command when its execution finishes without an exception escaping
the router generator, and zero times when one does escape — emission is
conditional on the execution not raising, not unconditional. -/
theorem C1_end_marker_conditional (execRun : String → String → ExecBehavior)
    (cmds : List (String × String)) (cid prompt : String)
    (hmem : (cid, prompt) ∈ cmds)
    (hnodup : (cmds.map Prod.fst).Nodup) :
    (command_consumer execRun cmds).count (SrvMsg.end_processing cid)
      = if (execRun cid prompt).raises then 0 else 1 := by
  induction cmds with
  | nil => cases hmem
  | cons hd rest ih =>
      obtain ⟨c, p⟩ := hd
      rw [command_consumer, List.count_append]
      simp only [List.map_cons, List.nodup_cons] at hnodup
      rcases List.mem_cons.mp hmem with heq | hmem2
      · obtain ⟨h1, h2⟩ := Prod.mk.injEq cid prompt c p ▸ heq
        subst h1; subst h2
        rw [count_end_processOne_self,
          count_end_consumer_not_queued execRun rest cid hnodup.1]
        exact Nat.add_zero _
      · have hcid : cid ∈ rest.map Prod.fst :=
          List.mem_map.mpr ⟨(cid, prompt), hmem2, rfl⟩
        have hne : c ≠ cid := fun he => hnodup.1 (he ▸ hcid)
        rw [count_end_processOne_other execRun c p cid hne, ih hmem2 hnodup.2]
        exact Nat.zero_add _

/-- C1 counterexample: a command whose execution lets an exception escape
the router generator receives no `end_processing` marker at all (the claim
demands exactly one even then). -/
theorem C1_counterexample :
    (command_consumer (fun _ _ => ExecBehavior.mk [] true)
        [("c1", "p1")]).count (SrvMsg.end_processing "c1") = 0 := by
  rfl

/-- Witness for `C1_end_marker_conditional` at a concrete non-raising
execution: exactly one `end_processing` marker. -/
theorem C1_end_marker_conditional_witness :
    ("a", "p") ∈ [("a", "p")]
    ∧ ((([("a", "p")] : List (String × String)).map Prod.fst).Nodup)
    ∧ (command_consumer (fun _ _ => ExecBehavior.mk [ExecEvent.yielded "hi"] false)
          [("a", "p")]).count (SrvMsg.end_processing "a")
        = if (ExecBehavior.mk [ExecEvent.yielded "hi"] false).raises then 0 else 1 :=
  ⟨List.mem_singleton.mpr rfl, by simp,
    C1_end_marker_conditional (fun _ _ => ExecBehavior.mk [ExecEvent.yielded "hi"] false)
      [("a", "p")] "a" "p" (List.mem_singleton.mpr rfl) (by simp)⟩

/-- Checks that no occurrence of `b` appears in the trace before the first
occurrence of `a`: the formal reading of "`b` is never emitted before `a`
has been emitted". -/
def noBeforeFirst : List SrvMsg → SrvMsg → SrvMsg → Bool
  | [], _, _ => true
  | x :: rest, a, b =>
      if x = b then false
      else if x = a then true
      else noBeforeFirst rest a b

theorem noBeforeFirst_of_mem_left (xs ys : List SrvMsg) (a b : SrvMsg)
    (hb : b ∉ xs) (ha : a ∈ xs) : noBeforeFirst (xs ++ ys) a b = true := by
  induction xs with
  | nil => cases ha
  | cons x rest ih =>
      rw [List.cons_append, noBeforeFirst]
      have hxb : ¬(x = b) := fun h => hb (h ▸ List.mem_cons_self x rest)
      rw [if_neg hxb]
      by_cases hxa : x = a
      · rw [if_pos hxa]
      · rw [if_neg hxa]
        refine ih (fun h => hb (List.mem_cons_of_mem x h)) ?_
        rcases List.mem_cons.mp ha with h | h
        · exact absurd h.symm hxa
        · exact h

/-- C2 (amended): on one connection, if C1's execution completes without an
escaping exception, then C2's `start_processing` is never emitted before
C1's `end_processing` has been emitted; when C1's execution raises, C2's
`start_processing` is emitted even though no `end_processing` for C1 ever
was. -/
theorem C2_fifo_when_no_raise (execRun : String → String → ExecBehavior)
    (c1 p1 c2 p2 : String) (hne : c1 ≠ c2)
    (hok : (execRun c1 p1).raises = false) :
    noBeforeFirst (command_consumer execRun [(c1, p1), (c2, p2)])
      (SrvMsg.end_processing c1) (SrvMsg.start_processing c2) = true := by
  rw [command_consumer]
  apply noBeforeFirst_of_mem_left
  · rw [processOneCommand, hok]
    intro hmem
    rcases List.mem_cons.mp hmem with h | h
    · exact hne (SrvMsg.start_processing.inj h).symm
    · rcases List.mem_append.mp h with h2 | h2
      · exact start_not_mem_consumeEvents c2 c1 _ h2
      · simp at h2
  · rw [processOneCommand, hok]
    simp

/-- C2 counterexample: with C1's execution raising an escaping exception,
the trace is `[start c1, start c2, end c2]` — C2's `start_processing` is
emitted although C1's `end_processing` never was. -/
theorem C2_counterexample :
    noBeforeFirst
      (command_consumer
        (fun cid _ => if cid = "c1" then ExecBehavior.mk [] true
          else ExecBehavior.mk [] false)
        [("c1", "p1"), ("c2", "p2")])
      (SrvMsg.end_processing "c1") (SrvMsg.start_processing "c2") = false := by
  rfl

/-- Witness for `C2_fifo_when_no_raise` at a concrete execution. -/
theorem C2_fifo_when_no_raise_witness :
    ("c1" ≠ ("c2" : String))
    ∧ ((fun (_ : String) (_ : String) => ExecBehavior.mk [] false) "c1" "p1").raises = false
    ∧ noBeforeFirst
        (command_consumer (fun _ _ => ExecBehavior.mk [] false)
          [("c1", "p1"), ("c2", "p2")])
        (SrvMsg.end_processing "c1") (SrvMsg.start_processing "c2") = true :=
  ⟨by decide, rfl,
    C2_fifo_when_no_raise (fun _ _ => ExecBehavior.mk [] false)
      "c1" "p1" "c2" "p2" (by decide) rfl⟩

/-- C3 (amended): a failure escaping one command's execution is caught at
the ConsumerTask boundary but silently discarded — the trace for that
command ends with whatever was emitted before the failure, with no terminal
failure message and no `end_processing` — and the loop is not terminated:
the next command still executes and its `start_processing` is emitted. -/
theorem C3_failure_swallowed (execRun : String → String → ExecBehavior)
    (c1 p1 c2 p2 : String)
    (h1 : (execRun c1 p1).raises = true) :
    command_consumer execRun [(c1, p1), (c2, p2)]
      = (SrvMsg.start_processing c1 :: consumeEvents c1 (execRun c1 p1).events)
          ++ command_consumer execRun [(c2, p2)]
    ∧ SrvMsg.start_processing c2 ∈ command_consumer execRun [(c1, p1), (c2, p2)] := by
  constructor
  · rw [command_consumer, processOneCommand, h1]
    simp
  · rw [command_consumer]
    refine List.mem_append_right _ ?_
    rw [command_consumer, processOneCommand]
    exact List.mem_append_left _ (List.mem_cons_self _ _)

/-- C3 counterexample: the failing command's trace is just its
`start_processing` — the caught failure is not converted into any delivered
terminal failure message. -/
theorem C3_counterexample :
    command_consumer (fun _ _ => ExecBehavior.mk [] true) [("c1", "p1")]
      = [SrvMsg.start_processing "c1"] := by
  rfl

/-- Witness for `C3_failure_swallowed` at a concrete raising execution. -/
theorem C3_failure_swallowed_witness :
    ((fun (_ : String) (_ : String) => ExecBehavior.mk [] true) "c1" "p1").raises = true
    ∧ (command_consumer (fun _ _ => ExecBehavior.mk [] true) [("c1", "p1"), ("c2", "p2")]
        = (SrvMsg.start_processing "c1"
            :: consumeEvents "c1" ((fun (_ : String) (_ : String) => ExecBehavior.mk [] true) "c1" "p1").events)
          ++ command_consumer (fun _ _ => ExecBehavior.mk [] true) [("c2", "p2")]
      ∧ SrvMsg.start_processing "c2"
          ∈ command_consumer (fun _ _ => ExecBehavior.mk [] true) [("c1", "p1"), ("c2", "p2")]) :=
  ⟨rfl, C3_failure_swallowed (fun _ _ => ExecBehavior.mk [] true) "c1" "p1" "c2" "p2" rfl⟩

/-- An inbound client message as the JSON object the receive loop reads
(main.py line 81): the `id` and `prompt` keys may each be absent. -/
structure InboundMsg where
  idKey : Option String
  promptKey : Option String
deriving DecidableEq, Repr

/-- How the websocket handler's receive loop ends. -/
inductive EndState
  | disconnected
  | crashed
deriving DecidableEq, Repr

/-- The receive loop of websocket_endpoint (main.py lines 79-85) over the
finite sequence of messages the client sends before closing: a well-formed
message is enqueued via `queue.put((data["id"], data["prompt"]))`; a message
missing either key makes `data["id"]` or `data["prompt"]` raise KeyError,
which is not caught (only WebSocketDisconnect is, line 86), so the handler
exits with nothing further enqueued. Returns the enqueued commands and how
the loop ended. -/
def websocket_receive_loop : List InboundMsg → List (String × String) × EndState
  | [] => ([], EndState.disconnected)
  | m :: rest =>
      match m.idKey, m.promptKey with
      | some i, some p =>
          let r := websocket_receive_loop rest
          ((i, p) :: r.1, r.2)
      | some _, none => ([], EndState.crashed)
      | none, _ => ([], EndState.crashed)

/-- C4 (amended): a malformed inbound message (missing `id` or `prompt`)
enqueues nothing of its own, but the resulting KeyError is not caught: the
receive loop terminates abnormally, so messages after the malformed one are
never enqueued either — the connection does not stay open accepting
subsequent messages. -/
theorem C4_malformed_crashes (pre rest : List InboundMsg) (m : InboundMsg)
    (hm : m.idKey = none ∨ m.promptKey = none) :
    (websocket_receive_loop (pre ++ m :: rest)).2 = EndState.crashed
    ∧ (websocket_receive_loop (pre ++ m :: rest)).1
        = (websocket_receive_loop pre).1 := by
  induction pre with
  | nil =>
      cases hi : m.idKey with
      | none => simp [websocket_receive_loop, hi]
      | some i =>
          cases hp : m.promptKey with
          | none => simp [websocket_receive_loop, hi, hp]
          | some p =>
              rcases hm with h | h
              · rw [hi] at h; cases h
              · rw [hp] at h; cases h
  | cons x pre2 ih =>
      cases hxi : x.idKey with
      | none => simp [websocket_receive_loop, hxi]
      | some i =>
          cases hxp : x.promptKey with
          | none => simp [websocket_receive_loop, hxi, hxp]
          | some p =>
              simp only [List.cons_append, websocket_receive_loop, hxi, hxp, List.append_eq]
              exact ⟨ih.1, by rw [ih.2]⟩

/-- C4 counterexample: a malformed first message (no `id`) followed by a
well-formed one — nothing at all is enqueued and the loop ends crashed,
refuting "the receive loop continues to accept subsequent messages". -/
theorem C4_counterexample :
    websocket_receive_loop
      [InboundMsg.mk none (some "hello"), InboundMsg.mk (some "c2") (some "ok")]
      = ([], EndState.crashed) := by
  rfl

/-- Witness for `C4_malformed_crashes` at a concrete message sequence. -/
theorem C4_malformed_crashes_witness :
    ((InboundMsg.mk (some "c1") none).idKey = none
      ∨ (InboundMsg.mk (some "c1") none).promptKey = none)
    ∧ ((websocket_receive_loop
          ([InboundMsg.mk (some "c0") (some "first")]
            ++ InboundMsg.mk (some "c1") none
              :: [InboundMsg.mk (some "c2") (some "later")])).2 = EndState.crashed
      ∧ (websocket_receive_loop
          ([InboundMsg.mk (some "c0") (some "first")]
            ++ InboundMsg.mk (some "c1") none
              :: [InboundMsg.mk (some "c2") (some "later")])).1
          = (websocket_receive_loop [InboundMsg.mk (some "c0") (some "first")]).1) :=
  ⟨Or.inr rfl,
    C4_malformed_crashes [InboundMsg.mk (some "c0") (some "first")]
      [InboundMsg.mk (some "c2") (some "later")]
      (InboundMsg.mk (some "c1") none) (Or.inr rfl)⟩

/-- C5: the router selects exactly one agent with the claimed priority —
the explicit custom marker first, then the task-specific predicates in list
order with first-match-wins, then the conversational default. The selection
computed by the source's router equals the spec's selection rule on every
payload. -/
theorem C5_router_priority (p : String) :
    (jarvix_main_router p).1 = specSelectedAgent p := by
  cases hd : detect_custom_prompt_mode p <;>
    cases h1 : can_handle DataScienceAgent.keywords p <;>
      cases h2 : can_handle CalendarAgent.keywords p <;>
        simp [jarvix_main_router, specSelectedAgent, routeSpecific, SPECIFIC_AGENTS,
          hd, h1, h2]

/-- C9: whenever the prompt, stripped and lowercased, starts with
`"custom:"`, the custom agent is selected and invoked with
`prompt[7:].strip()` computed on the original unstripped prompt. -/
theorem C9_custom_clean_prompt (p : String)
    (h : pyStartsWith (pyLower (pyStrip p)) "custom:" = true) :
    jarvix_main_router p = (AgentKind.customPrompt, pyStrip (pySlice p 7)) := by
  rw [jarvix_main_router, if_pos]
  exact h

/-- Witness for `C9_custom_clean_prompt`: with two leading spaces the
detector fires, and the slice taken on the original prompt chops the
leading spaces plus `"CUSTO"`, leaving `"M: hello"`, not `"hello"`. -/
theorem C9_custom_clean_prompt_witness :
    pyStartsWith (pyLower (pyStrip "  CUSTOM: hello")) "custom:" = true
    ∧ jarvix_main_router "  CUSTOM: hello" = (AgentKind.customPrompt, "M: hello") := by
  refine ⟨by decide, ?_⟩
  rw [C9_custom_clean_prompt "  CUSTOM: hello" (by decide)]
  rfl

/-- ConversationalAgent.execute (jarvix_logic.py lines 374-401) as the
events it produces, driven by the fragments the text-generation stream
yields (`chunks`; `if chunk and chunk.text` is the truthiness filter) and by
whether an exception was raised inside the try block after the streamed
fragments (`apiError`): the activation yield, one stream send per truthy
fragment carrying the command id, then — only when the loop completed with
no truthy fragment sent — the explicit `"[Response was empty or blocked]"`
stream send; an exception instead yields the API-error message. -/
def ConversationalAgent.events (command_id : Option String) (chunks : List String)
    (apiError : Option String) : List ExecEvent :=
  ExecEvent.yielded "🤖 **Jarvix 👋 Completed**"
    :: ((chunks.filter pyTruthy).map (fun c => ExecEvent.streamed command_id c)
      ++ match apiError with
         | some e => [ExecEvent.yielded ("❌ **Jarvix API Error:** " ++ e)]
         | none =>
            if (chunks.filter pyTruthy).isEmpty then
              [ExecEvent.streamed command_id "[Response was empty or blocked]"]
            else [])

/-- CustomPromptAgent.execute (jarvix_logic.py lines 201-358) as the events
it produces on the same driving data, plus the PDF file name and path it
reports: the mode-activation yield, the streamed fragments, the empty/blocked
translation when nothing was streamed, then the PDF-report yields; an
exception anywhere in the try block instead ends with the custom-error
yield. -/
def CustomPromptAgent.events (command_id : Option String) (chunks : List String)
    (err : Option String) (pdf_filename pdf_path : String) : List ExecEvent :=
  ExecEvent.yielded "✨ **Custom Analysis Mode**: Processing your prompt...\n"
    :: ((chunks.filter pyTruthy).map (fun c => ExecEvent.streamed command_id c)
      ++ match err with
         | some e => [ExecEvent.yielded ("❌ **Custom Analysis Error:** " ++ e)]
         | none =>
            (if (chunks.filter pyTruthy).isEmpty then
              [ExecEvent.streamed command_id "[Response was empty or blocked]"]
            else [])
            ++ [ExecEvent.yielded "\n\n📄 **Generating PDF report...**\n",
                ExecEvent.yielded ("✅ **PDF Report Generated**: " ++ pdf_filename ++ "\n"),
                ExecEvent.yielded ("📍 **Location**: " ++ pdf_path ++ "\n"),
                ExecEvent.yielded "\n✨ **Analysis complete!** Your custom analysis has been processed and saved to PDF."])

/-- C6 (amended): a text-generation-backed agent whose stream yields zero
truthy fragments still emits the explicit non-empty
`"[Response was empty or blocked]"` stream message exactly once instead of
completing silently; for the conversational agent it is the terminal
message, but the custom agent then emits four further PDF-report messages
after it, ending with the "Analysis complete!" yield, so there the
translation is not the terminal message. The full emission lists of both
agents are pinned down. -/
theorem C6_empty_stream_translation (command_id : Option String)
    (chunks : List String) (fn fp : String)
    (hempty : chunks.filter pyTruthy = []) :
    ConversationalAgent.events command_id chunks none
      = [ExecEvent.yielded "🤖 **Jarvix 👋 Completed**",
         ExecEvent.streamed command_id "[Response was empty or blocked]"]
    ∧ CustomPromptAgent.events command_id chunks none fn fp
      = [ExecEvent.yielded "✨ **Custom Analysis Mode**: Processing your prompt...\n",
         ExecEvent.streamed command_id "[Response was empty or blocked]",
         ExecEvent.yielded "\n\n📄 **Generating PDF report...**\n",
         ExecEvent.yielded ("✅ **PDF Report Generated**: " ++ fn ++ "\n"),
         ExecEvent.yielded ("📍 **Location**: " ++ fp ++ "\n"),
         ExecEvent.yielded "\n✨ **Analysis complete!** Your custom analysis has been processed and saved to PDF."] := by
  constructor
  · rw [ConversationalAgent.events, hempty]
    rfl
  · rw [CustomPromptAgent.events, hempty]
    rfl

/-- C6 counterexample: with a zero-fragment stream, the custom agent's
final emission is the "Analysis complete!" yield, not the
`"[Response was empty or blocked]"` translation — so the translation is not
that agent's terminal message, refuting the claim's "exactly one non-empty
explicit terminal message — the empty-response translation". -/
theorem C6_counterexample :
    (CustomPromptAgent.events (some "a") [] none "r.pdf" "/out/r.pdf").getLast?
      = some (ExecEvent.yielded "\n✨ **Analysis complete!** Your custom analysis has been processed and saved to PDF.")
    ∧ ExecEvent.yielded "\n✨ **Analysis complete!** Your custom analysis has been processed and saved to PDF."
        ≠ ExecEvent.streamed (some "a") "[Response was empty or blocked]" := by
  exact ⟨rfl, by simp⟩

/-- Witness for `C6_empty_stream_translation` at the empty fragment
stream. -/
theorem C6_empty_stream_translation_witness :
    ([] : List String).filter pyTruthy = []
    ∧ (ConversationalAgent.events (some "a") [] none
        = [ExecEvent.yielded "🤖 **Jarvix 👋 Completed**",
           ExecEvent.streamed (some "a") "[Response was empty or blocked]"]
      ∧ CustomPromptAgent.events (some "a") [] none "r.pdf" "/out/r.pdf"
        = [ExecEvent.yielded "✨ **Custom Analysis Mode**: Processing your prompt...\n",
           ExecEvent.streamed (some "a") "[Response was empty or blocked]",
           ExecEvent.yielded "\n\n📄 **Generating PDF report...**\n",
           ExecEvent.yielded ("✅ **PDF Report Generated**: " ++ "r.pdf" ++ "\n"),
           ExecEvent.yielded ("📍 **Location**: " ++ "/out/r.pdf" ++ "\n"),
           ExecEvent.yielded "\n✨ **Analysis complete!** Your custom analysis has been processed and saved to PDF."]) :=
  ⟨rfl, C6_empty_stream_translation (some "a") [] "r.pdf" "/out/r.pdf" rfl⟩

/-- NUM_CHARTS (data_scientist.py line 26), modelled at its default value 3
(the environment override is out of scope). -/
def NUM_CHARTS : Nat := 3

/-- The websocket sends of get_brief_analysis (data_scientist.py lines
63-78), driven by the truthy fragments the generation stream yields: each
is sent as `{"type": "stream", "message": chunk.text}` — with no `"id"` key
at all. -/
def get_brief_analysis_sends (chunks : List String) : List SrvMsg :=
  (chunks.filter pyTruthy).map (fun c => SrvMsg.stream none c)

/-- The analysis text get_brief_analysis returns: the concatenation of the
truthy fragments, or the error string when the generation call raised. -/
def get_brief_analysis_text (chunks : List String) (err : Option String) : String :=
  match err with
  | some e => "❌ **Analysis Error:** " ++ e
  | none => String.join (chunks.filter pyTruthy)

/-- The websocket sends of run_dynamic_analysis_async (data_scientist.py
lines 204-255 and 420-424) on its non-raising path, driven by the brief
analysis fragments/error, the generated visualization code, the callback
messages of generate_charts, the chart count and the PDF path. If the
analysis text contains `"❌"` the function returns right after the brief
sends (line 213-214). Every single send in this module is of type
`"stream"` with no `"id"` key. -/
def run_dynamic_analysis_sends (chunks : List String) (briefErr : Option String)
    (viz_code : String) (cbMsgs : List String) (chart_count : Nat)
    (pdf_path : String) : List SrvMsg :=
  SrvMsg.stream none "📊 Analyzing dataset...\n"
    :: get_brief_analysis_sends chunks
    ++ (if pyIn "❌" (get_brief_analysis_text chunks briefErr) then []
        else
          [SrvMsg.stream none
            ("\n📈 Generating Python code for " ++ toString NUM_CHARTS
              ++ " visualization(s)...\n")]
          ++ (if pyStartsWith viz_code "# Error" then
                [SrvMsg.stream none ("⚠️ " ++ viz_code ++ "\n")]
              else [])
          ++ cbMsgs.map (fun m => SrvMsg.stream none m)
          ++ [SrvMsg.stream none
                ("✅ Successfully created " ++ toString chart_count
                  ++ " visualization(s)\n"),
              SrvMsg.stream none
                ("\n✅ **PDF Report Generated!** Saved to: `" ++ pdf_path ++ "`\n")])

/-- C7 (amended): messages emitted by the consumer loop itself and stream
messages sent by the jarvix_logic agents carry the id of the originating
command, but every stream message emitted inside the data-science analysis
pipeline (get_brief_analysis, run_dynamic_analysis_async) carries no `id`
field at all. -/
theorem C7_id_attribution (cid prompt : String) (chunks : List String)
    (err : Option String) (fn fp : String) :
    (∀ msg ∈ processOneCommand
        (fun _ _ => ExecBehavior.mk (ConversationalAgent.events (some cid) chunks err) false)
        cid prompt, msg.idField = some cid)
    ∧ (∀ msg ∈ consumeEvents cid (CustomPromptAgent.events (some cid) chunks err fn fp),
        msg.idField = some cid)
    ∧ (∀ msg ∈ get_brief_analysis_sends chunks, msg.idField = none)
    ∧ (∀ viz_code cbMsgs chart_count pdf_path,
        ∀ msg ∈ run_dynamic_analysis_sends chunks err viz_code cbMsgs chart_count pdf_path,
          msg.idField = none) := by
  have hconsume : ∀ (evs : List ExecEvent),
      (∀ i m, ExecEvent.streamed i m ∈ evs → i = some cid) →
      ∀ msg ∈ consumeEvents cid evs, msg.idField = some cid := by
    intro evs
    induction evs with
    | nil => intro _ msg hmsg; simp [consumeEvents] at hmsg
    | cons e rest ih =>
        intro hb msg hmsg
        cases e with
        | yielded m =>
            rw [consumeEvents] at hmsg
            rcases List.mem_append.mp hmsg with h | h
            · by_cases ht : pyTruthy m = true
              · rw [if_pos ht, List.mem_singleton] at h
                rw [h]; rfl
              · rw [if_neg ht] at h; cases h
            · exact ih (fun i mm hmem => hb i mm (List.mem_cons_of_mem _ hmem)) msg h
        | streamed i m =>
            rw [consumeEvents] at hmsg
            rcases List.mem_cons.mp hmsg with h | h
            · rw [h, SrvMsg.idField, hb i m (List.mem_cons_self _ _)]
            · exact ih (fun j mm hmem => hb j mm (List.mem_cons_of_mem _ hmem)) msg h
  have hconv : ∀ i m, ExecEvent.streamed i m
      ∈ ConversationalAgent.events (some cid) chunks err → i = some cid := by
    intro i m hmem
    rw [ConversationalAgent.events.eq_def] at hmem
    rcases List.mem_cons.mp hmem with h | h
    · cases h
    rcases List.mem_append.mp h with h2 | h2
    · rcases List.mem_map.mp h2 with ⟨c, _, hc⟩
      exact (ExecEvent.streamed.inj hc.symm).1
    cases err with
    | some e => rw [List.mem_singleton] at h2; cases h2
    | none =>
        by_cases he : (chunks.filter pyTruthy).isEmpty = true
        · rw [if_pos he, List.mem_singleton] at h2
          exact (ExecEvent.streamed.inj h2).1
        · rw [if_neg he] at h2; cases h2
  have hcustom : ∀ i m, ExecEvent.streamed i m
      ∈ CustomPromptAgent.events (some cid) chunks err fn fp → i = some cid := by
    intro i m hmem
    rw [CustomPromptAgent.events.eq_def] at hmem
    rcases List.mem_cons.mp hmem with h | h
    · cases h
    rcases List.mem_append.mp h with h2 | h2
    · rcases List.mem_map.mp h2 with ⟨c, _, hc⟩
      exact (ExecEvent.streamed.inj hc.symm).1
    cases err with
    | some e => rw [List.mem_singleton] at h2; cases h2
    | none =>
        rcases List.mem_append.mp h2 with h3 | h3
        · by_cases he : (chunks.filter pyTruthy).isEmpty = true
          · rw [if_pos he, List.mem_singleton] at h3
            exact (ExecEvent.streamed.inj h3).1
          · rw [if_neg he] at h3; cases h3
        · simp at h3
  refine ⟨?_, hconsume _ hcustom, ?_, ?_⟩
  · intro msg hmsg
    rw [processOneCommand] at hmsg
    rcases List.mem_cons.mp hmsg with h | h
    · rw [h]; rfl
    rcases List.mem_append.mp h with h2 | h2
    · exact hconsume _ hconv msg h2
    · simp only [if_neg Bool.false_ne_true, List.mem_singleton] at h2
      rw [h2]; rfl
  · intro msg hmsg
    rcases List.mem_map.mp hmsg with ⟨c, _, hc⟩
    rw [← hc]; rfl
  · intro viz_code cbMsgs chart_count pdf_path msg hmsg
    rw [run_dynamic_analysis_sends] at hmsg
    rcases List.mem_cons.mp hmsg with h | h
    · rw [h]; rfl
    rcases List.mem_append.mp h with h2 | h2
    · rcases List.mem_map.mp h2 with ⟨c, _, hc⟩
      rw [← hc]; rfl
    by_cases hbad : pyIn "❌" (get_brief_analysis_text chunks err) = true
    · rw [if_pos hbad] at h2; cases h2
    rw [if_neg hbad] at h2
    rcases List.mem_append.mp h2 with h3 | h3
    · rcases List.mem_append.mp h3 with h4 | h4
      · rcases List.mem_append.mp h4 with h5 | h5
        · rw [List.mem_singleton] at h5; rw [h5]; rfl
        · by_cases hviz : pyStartsWith viz_code "# Error" = true
          · rw [if_pos hviz, List.mem_singleton] at h5; rw [h5]; rfl
          · rw [if_neg hviz] at h5; cases h5
      · rcases List.mem_map.mp h4 with ⟨c, _, hc⟩
        rw [← hc]; rfl
    · rcases List.mem_cons.mp h3 with h6 | h6
      · rw [h6]; rfl
      · rw [List.mem_singleton] at h6; rw [h6]; rfl

/-- C7 counterexample: a brief-analysis fragment is streamed to the client
with no `id` field at all, so it cannot equal the originating command's id
— refuting "every message emitted while processing a command carries an id
field equal to the command's id". -/
theorem C7_counterexample :
    get_brief_analysis_sends ["Key insight."]
      = [SrvMsg.stream none "Key insight."]
    ∧ (SrvMsg.stream none "Key insight.").idField = none := by
  exact ⟨rfl, rfl⟩

/-- A queued command list, the contents of one connection's asyncio.Queue. -/
abbrev CmdQueue := List (String × String)

/-- The `active_connections` dict of ConnectionManager (main.py line 17),
modelled as an association list keyed by connection identity with Python
dict semantics. -/
abbrev ConnMap := List (Nat × CmdQueue)

/-- Python dict assignment `d[k] = v`: replace the value if the key is
present, otherwise append the new entry. -/
def dict_set (m : ConnMap) (k : Nat) (v : CmdQueue) : ConnMap :=
  if m.any (fun kv => kv.1 == k) then
    m.map (fun kv => if kv.1 == k then (k, v) else kv)
  else m ++ [(k, v)]

/-- ConnectionManager.connect (main.py lines 19-21):
`self.active_connections[websocket] = asyncio.Queue()` — an unconditional
dict assignment storing a fresh empty queue; the websocket `accept` is
transport-level and not part of the registry state. -/
def ConnectionManager.connect (m : ConnMap) (ws : Nat) : ConnMap :=
  dict_set m ws []

/-- ConnectionManager.get_queue (main.py lines 27-28):
`self.active_connections.get(websocket)`. -/
def ConnectionManager.get_queue (m : ConnMap) (ws : Nat) : Option CmdQueue :=
  (m.find? (fun kv => kv.1 == ws)).map (fun kv => kv.2)

/-- ConnectionManager.disconnect (main.py lines 23-25): delete the entry if
present, no-op otherwise. -/
def ConnectionManager.disconnect (m : ConnMap) (ws : Nat) : ConnMap :=
  m.filter (fun kv => !(kv.1 == ws))

/-- `queue.put` on the queue owned by `ws` (main.py line 85). -/
def queue_put (m : ConnMap) (ws : Nat) (cmd : String × String) : ConnMap :=
  m.map (fun kv => if kv.1 == ws then (kv.1, kv.2 ++ [cmd]) else kv)

theorem find_after_replace (m : ConnMap) (ws : Nat)
    (h : m.any (fun kv => kv.1 == ws) = true) :
    (m.map (fun kv => if kv.1 == ws then (ws, ([] : CmdQueue)) else kv)).find?
        (fun kv => kv.1 == ws) = some (ws, []) := by
  induction m with
  | nil => cases h
  | cons kv rest ih =>
      by_cases hk : (kv.1 == ws) = true
      · rw [List.map_cons, if_pos hk]
        exact List.find?_cons_of_pos _ (by simp)
      · have hk2 : (kv.1 == ws) = false := by simpa using hk
        rw [List.any_cons, hk2, Bool.false_or] at h
        rw [List.map_cons, if_neg hk, List.find?_cons_of_neg _ (by simp [hk2])]
        exact ih h

theorem find_after_append (m : ConnMap) (ws : Nat) (v : CmdQueue)
    (h : m.any (fun kv => kv.1 == ws) = false) :
    (m ++ [(ws, v)]).find? (fun kv => kv.1 == ws) = some (ws, v) := by
  induction m with
  | nil =>
      rw [List.nil_append]
      exact List.find?_cons_of_pos _ (by simp)
  | cons kv rest ih =>
      rw [List.any_cons, Bool.or_eq_false_iff] at h
      rw [List.cons_append, List.find?_cons_of_neg _ (by simp [h.1])]
      exact ih h.2

/-- C8 (amended): registering a connection never fails and never preserves
an existing registration — `connect` always ends with the connection mapped
to a fresh empty queue, silently replacing whatever queue was stored
before. -/
theorem C8_connect_replaces (m : ConnMap) (ws : Nat) :
    ConnectionManager.get_queue (ConnectionManager.connect m ws) ws = some [] := by
  rw [ConnectionManager.connect, ConnectionManager.get_queue, dict_set]
  by_cases h : m.any (fun kv => kv.1 == ws) = true
  · rw [if_pos h, find_after_replace m ws h]
    rfl
  · rw [if_neg h, find_after_append m ws [] (Bool.eq_false_iff.mpr h)]
    rfl

/-- C8 counterexample: connection 1 is registered and has a pending queued
command; registering it again does not fail — it silently succeeds and
replaces the queue/consumer pairing's queue with a fresh empty one,
discarding the pending command. -/
theorem C8_counterexample :
    ConnectionManager.get_queue
        (queue_put (ConnectionManager.connect [] 1) 1 ("c1", "analyze data.csv")) 1
      = some [("c1", "analyze data.csv")]
    ∧ ConnectionManager.get_queue
        (ConnectionManager.connect
          (queue_put (ConnectionManager.connect [] 1) 1 ("c1", "analyze data.csv")) 1) 1
      = some [] := by
  exact ⟨rfl, rfl⟩
